import Mathlib

/-!
Shallow embedding of the WhatsApp karate-centre bot (`app.py`): the webhook
dispatcher, the registration parser, the broadcast filter and the broadcast
tally, together with theorems settling the specification claims.

Python strings are modelled as Lean `String`; the handful of Python string
primitives the code uses (`strip`, `lower`, `split`, `replace`, `startswith`,
`lstrip`, `isdigit`, `in`) are modelled char-by-char on `String.data` so that
every definition is executable and kernel-reducible.  Python `str.isdigit`
is modelled by ASCII `Char.isDigit` (all inputs of interest are ASCII).
-/

namespace KarateBot

set_option maxRecDepth 10000

/-! ## Python string primitives -/

/-- Model of Python `str.strip()` on the character list: drop leading and
trailing whitespace. -/
def trimChars (cs : List Char) : List Char :=
  ((cs.dropWhile Char.isWhitespace).reverse.dropWhile Char.isWhitespace).reverse

/-- Model of Python `str.strip()`. -/
def pyStrip (s : String) : String :=
  String.mk (trimChars s.data)

/-- Model of Python `str.lower()`. -/
def lowerStr (s : String) : String :=
  String.mk (s.data.map Char.toLower)

/-- Model of Python `str.replace("|", " ")`: the pattern is a single
character, so the replacement is a character map. -/
def replacePipes (s : String) : String :=
  String.mk (s.data.map (fun c => if c = '|' then ' ' else c))

/-- Split a character list at every whitespace character, keeping the
(possibly empty) pieces between them. -/
def splitWsChars : List Char → List (List Char)
  | [] => [[]]
  | c :: cs =>
    if c.isWhitespace then
      [] :: splitWsChars cs
    else
      match splitWsChars cs with
      | [] => [[c]]
      | t :: ts => (c :: t) :: ts

/-- Model of Python `str.split()` with no separator: whitespace-delimited
tokens, empty pieces dropped. -/
def wsTokens (s : String) : List String :=
  ((splitWsChars s.data).map String.mk).filter (fun p => p ≠ "")

/-- Model of the Python digit filter used by the bot: keep only the digit
characters of the string. -/
def digitsOf (s : String) : String :=
  String.mk (s.data.filter Char.isDigit)

/-- Model of Python `str.lstrip` with the zero character: drop leading
zero characters. -/
def lstripZeros (s : String) : String :=
  String.mk (s.data.dropWhile (fun c => c = '0'))

/-- Model of Python `s.startswith(p)`. -/
def strStarts (s p : String) : Bool :=
  p.data.isPrefixOf s.data

/-- Model of Python `sub in cs` on character lists. -/
def listContainsSub : List Char → List Char → Bool
  | sub, [] => sub.isEmpty
  | sub, c :: t => sub.isPrefixOf (c :: t) || listContainsSub sub t

/-- Model of Python `sub in s` (substring containment). -/
def containsSub (s sub : String) : Bool :=
  listContainsSub sub.data s.data

/-! ## Registration parser (webhook lines 621-648 of `app.py`)

The code strips each token of the pipe-replaced, whitespace-split text and
drops the empty ones; with at least 2 tokens left, the contact is the last
token and the name is the space-join of the rest.  Tokens produced by
`split()` contain no whitespace, so the per-token `strip` is the identity;
it is kept to mirror the source. -/

/-- The token list the registration code computes from the message text. -/
def parseParts (text : String) : List String :=
  (((splitWsChars (replacePipes text).data).map
      (fun cs => pyStrip (String.mk cs))).filter (fun p => p ≠ ""))

/-- The registration parser: `some (name, contact)` when at least two tokens
remain after pipe-replacement and whitespace splitting, `none` otherwise.
The contact is the last token and the name is the space-join of the
rest. -/
def parseRegistration (text : String) : Option (String × String) :=
  let parts := parseParts text
  if 2 ≤ parts.length then
    some (String.intercalate " " parts.dropLast, (parts.getLast?).getD "")
  else
    none

/-! ## Outbound messages and effects

The three interactive payloads the bot ever sends (`send_welcome_message`,
`send_main_options_list`, `send_registration_options`) are modelled as
structured values carrying exactly the ids, titles and texts of the source
dictionaries. -/

/-- One button of an interactive "button" payload. -/
structure ButtonSpec where
  id : String
  title : String
deriving DecidableEq, Repr

/-- One row of an interactive "list" payload. -/
structure ListRowSpec where
  id : String
  title : String
  descr : String
deriving DecidableEq, Repr

/-- One section of an interactive "list" payload. -/
structure ListSectionSpec where
  title : String
  rows : List ListRowSpec
deriving DecidableEq, Repr

/-- An interactive message payload: a button set or a sectioned list menu. -/
inductive InteractiveData where
  | buttons (body : String) (buttonList : List ButtonSpec)
  | listMenu (header body buttonLabel : String) (sections : List ListSectionSpec)
deriving DecidableEq, Repr

/-- An outbound message handed to `send_whatsapp_message`: plain text or an
interactive payload. -/
inductive OutMsg where
  | text (recipient body : String)
  | interactive (recipient : String) (data : InteractiveData)
deriving DecidableEq, Repr

/-- A menu-style outbound message is an interactive one (button or list). -/
def OutMsg.isMenu : OutMsg → Bool
  | .text _ _ => false
  | .interactive _ _ => true

/-- Observable effects of handling a webhook event: a row appended to the
lead sheet (`sheet.append_row`; the timestamp column is ambient wall-clock
time and is abstracted away), a message sent to the user, or a line on the
operator log (`logger.error`). -/
inductive Action where
  | appendLead (name contact whatsappId intent : String)
  | send (msg : OutMsg)
  | operatorLog (logMsg : String)
deriving DecidableEq, Repr

/-- The user-facing sends among a list of actions. -/
def sendsOf (acts : List Action) : List Action :=
  acts.filter (fun a => match a with | .send _ => true | _ => false)

/-- The sheet appends among a list of actions. -/
def appendsOf (acts : List Action) : List Action :=
  acts.filter (fun a => match a with | .appendLead _ _ _ _ => true | _ => false)

/-- The actions of a list that are not operator-log lines. -/
def nonLogActions (acts : List Action) : List Action :=
  acts.filter (fun a => match a with | .operatorLog _ => false | _ => true)

/-- Model of `add_lead_to_sheet(name, contact, intent, whatsapp_id)`:
`appendOk` is whether `sheet.append_row` succeeds.  On success the row is
appended and `True` returned; on failure the exception is caught, the error
is logged to the operator channel, and `False` returned. -/
def add_lead_to_sheet (appendOk : Bool) (name contact intent whatsapp_id : String) :
    Bool × List Action :=
  if appendOk then
    (true, [Action.appendLead name contact whatsapp_id intent])
  else
    (false, [Action.operatorLog "Failed to add lead to sheet"])

/-! ## Canned message content -/

/-- Body of the welcome interactive message (`send_welcome_message`). -/
def welcomeInteractive : InteractiveData :=
  .buttons "Oman Karate Centre\n\nWelcome. Select an option.\n\nExcellence • Discipline • Respect"
    [⟨"view_options", "View Options"⟩]

/-- The full options list (`send_main_options_list`). -/
def mainOptionsInteractive : InteractiveData :=
  .listMenu "Oman Karate Centre" "Choose an option to learn more:" "View Options"
    [⟨"Centre Information",
      [⟨"about_us", "About Us", "Our mission and values"⟩,
       ⟨"programs", "Programs", "Training programs for all ages"⟩,
       ⟨"schedule", "Schedule", "Class timings and batches"⟩,
       ⟨"membership", "Membership", "Fees and discount information"⟩]⟩,
     ⟨"Contact & Registration",
      [⟨"location", "Location", "Our address and directions"⟩,
       ⟨"contact", "Contact", "Get in touch with us"⟩,
       ⟨"offers", "Offers", "Current promotions"⟩,
       ⟨"events", "Events", "Upcoming activities"⟩,
       ⟨"register", "Register", "Join Oman Karate Centre"⟩]⟩]

/-- The registration options list (`send_registration_options`). -/
def registrationOptionsInteractive : InteractiveData :=
  .listMenu "Registration" "Choose your registration option:" "Register"
    [⟨"Enrollment Options",
      [⟨"register_now", "Register Now", "Complete registration immediately"⟩,
       ⟨"register_later", "Register Later", "Get updates and offers later"⟩]⟩]

/-- Canned text for the `about_us` list option. -/
def aboutUsText : String :=
  "About Us\n\nOman Karate Centre is dedicated to teaching traditional karate for all ages.\nOur mission is to build discipline, confidence, and strength in every student through expert-led training.\nCertified instructors, safe environment, and a legacy of excellence."

/-- Canned text for the `programs` list option. -/
def programsText : String :=
  "Programs\n\nWe offer programs for all age groups:\n\nKids Karate (Age 5+)\n\nTeens & Adults Karate\n\nBlack Belt Training\n\nSelf Defense Sessions\n\nEvery program focuses on fitness, technique, and character development."

/-- Canned text for the `schedule` list option. -/
def scheduleText : String :=
  "Schedule\n\nClass Timings:\nWeekdays: 5:00 PM – 8:00 PM\nWeekends: 10:00 AM – 1:00 PM\n\nClasses are divided by age and skill level. Contact us to confirm your batch."

/-- Canned text for the `membership` list option. -/
def membershipText : String :=
  "Membership\n\nMembership Details:\n\nRegistration Fee: 10 OMR\n\nMonthly Fee: 25 OMR\n\nFamily & Group Discounts available\n\nFlexible plans designed for long-term training and growth."

/-- Canned text for the `location` list option. -/
def locationText : String :=
  "Location\n\nAddress:\nOman Karate Centre\nNear Sultan Qaboos Sports Complex, Muscat\n\nGoogle Maps: https://maps.app.goo.gl/jcdQoP7ZnuPot1wK9"

/-- Canned text for the `contact` list option. -/
def contactText : String :=
  "Contact\n\nContact Information:\nWhatsApp: +968 9123 4567\nEmail: oman.karate.centre@gmail.com\n\nFeel free to reach out for schedules, trial classes, or general queries."

/-- Canned text for the `offers` list option. -/
def offersText : String :=
  "Offers\n\nCurrent Offers:\nNo active promotions at the moment.\nStay tuned for seasonal discounts and referral bonuses."

/-- Canned text for the `events` list option. -/
def eventsText : String :=
  "Events\n\nUpcoming Events:\n\nKarate Belt Grading – December 2025\n\nAnnual Tournament – February 2026\n\nKeep training — we\x27ll share event updates soon!"

/-- Canned `register_now` prompt; the same text appears both in the
interaction table and inline in the webhook list-reply branch. -/
def registerNowPromptText : String :=
  "Register Now\n\nPlease reply with your Name and Contact Number in this format:\n\nName | Contact\nExample: Ahmed | +96891234567\n\nOur team will reach out to confirm your registration shortly."

/-- Canned text for the `register_later` entry of the interaction table. -/
def registerLaterCannedText : String :=
  "Register Later\n\nGot it! We\x27ll reach out to you later with our latest offers and class details.\nThank you for your interest in Oman Karate Centre."

/-- Acknowledgement sent by the webhook after saving a `register_later`
lead (line 579 of `app.py`). -/
def registerLaterAckText : String :=
  "Thank you! We\x27ve noted your interest and will contact you with updates and offers."

/-- Fallback reply for an unrecognized interaction id. -/
def didNotUnderstandText : String :=
  "Sorry, I didn\x27t understand that option. Please select \x27View Options\x27 to see available choices."

/-- Registration confirmation built from the parsed name and contact. -/
def confirmationText (name contact : String) : String :=
  "Registration Received!\n\nThank you " ++ name ++ "! We have received your registration.\n\nName: " ++ name ++ "\nContact: " ++ contact ++ "\n\nOur team will contact you within 24 hours to complete your enrollment.\n\nFor immediate assistance: +968 9123 4567"

/-- Format-hint reply of the registration `except` branch (lines 643-647);
that branch is unreachable because all calls inside the `try` catch their
own exceptions, but it is part of the interface text. -/
def formatHintText : String :=
  "Please send your information as:\n\nName | Phone Number\n\nExample: Ahmed | 91234567\n\nOr: Ahmed 91234567"

/-- The greeting tokens of the webhook text branch. -/
def greetings : List String :=
  ["hi", "hello", "hey", "start", "menu"]

/-! ## The interaction table and `handle_interaction` -/

/-- A value of the `responses` dictionary: either a plain canned reply or a
callable that sends a further menu. -/
inductive RespEntry where
  | reply (text : String)
  | sendMainOptions
  | sendRegistrationOptions
deriving DecidableEq, Repr

/-- The `responses` dictionary of `handle_interaction`, in declaration
order. -/
def responses : List (String × RespEntry) :=
  [("view_options", .sendMainOptions),
   ("about_us", .reply aboutUsText),
   ("programs", .reply programsText),
   ("schedule", .reply scheduleText),
   ("membership", .reply membershipText),
   ("location", .reply locationText),
   ("contact", .reply contactText),
   ("offers", .reply offersText),
   ("events", .reply eventsText),
   ("register", .sendRegistrationOptions),
   ("register_now", .reply registerNowPromptText),
   ("register_later", .reply registerLaterCannedText)]

/-- Model of `handle_interaction(interaction_id, phone_number)`: look the id
up in `responses`; a callable sends its menu and returns `None`, a string is
sent as plain text and returned, a missing id gets the fallback reply. -/
def handle_interaction (interaction_id phone_number : String) :
    List Action × Option String :=
  match (responses.find? (fun kv => kv.1 = interaction_id)).map (fun kv => kv.2) with
  | some RespEntry.sendMainOptions =>
      ([.send (.interactive phone_number mainOptionsInteractive)], none)
  | some RespEntry.sendRegistrationOptions =>
      ([.send (.interactive phone_number registrationOptionsInteractive)], none)
  | some (RespEntry.reply t) =>
      ([.send (.text phone_number t)], some t)
  | none =>
      ([.send (.text phone_number didNotUnderstandText)], none)

/-! ## The webhook dispatcher -/

/-- A normalized inbound message payload.  `unsupported` stands for any
message that is neither an interactive list/button reply nor a text message
(the webhook answers those with status `unhandled_message_type`). -/
inductive InboundMessage where
  | text (body : String)
  | listReply (id title : String)
  | buttonReply (id title : String)
  | unsupported
deriving DecidableEq, Repr

/-- The text-message branch of the webhook (lines 611-652 of `app.py`).
`sheetOk` is whether the global `sheet` handle is non-`None`; `appendOk` is
whether `sheet.append_row` succeeds.  Returns the effect list and the JSON
`status` string of the HTTP response. -/
def handleText (sheetOk appendOk : Bool) (phone bodyRaw : String) :
    List Action × String :=
  let text := pyStrip bodyRaw
  if greetings.contains (lowerStr text) then
    ([.send (.interactive phone welcomeInteractive)], "welcome_sent")
  else if text.data.any Char.isDigit ∧ 2 ≤ (wsTokens text).length then
    match parseRegistration text with
    | some (name, contact) =>
        ((if sheetOk then (add_lead_to_sheet appendOk name contact "Register Now" phone).2 else []) ++
          [.send (.text phone (confirmationText name contact))], "registered")
    | none =>
        ([.send (.interactive phone welcomeInteractive)], "fallback_welcome_sent")
  else
    ([.send (.interactive phone welcomeInteractive)], "fallback_welcome_sent")

/-- The per-message dispatch of the webhook POST handler (lines 561-654 of
`app.py`), after the envelope has been unwrapped. -/
def handleMessage (sheetOk appendOk : Bool) (phone : String) (msg : InboundMessage) :
    List Action × String :=
  match msg with
  | .listReply id _title =>
      if id = "register_later" then
        ((if sheetOk then (add_lead_to_sheet appendOk "Pending" phone "Register Later" phone).2 else []) ++
          [.send (.text phone registerLaterAckText)], "register_later_saved")
      else if id = "register_now" then
        ([.send (.text phone registerNowPromptText)], "register_now_prompt")
      else
        ((handle_interaction id phone).1, "list_handled")
  | .buttonReply id _title =>
      if id = "view_options" then
        ([.send (.interactive phone mainOptionsInteractive)], "view_options_sent")
      else
        ((handle_interaction id phone).1, "button_handled")
  | .text body => handleText sheetOk appendOk phone body
  | .unsupported => ([], "unhandled_message_type")

/-! ## The webhook envelope -/

/-- One entry of the `messages` array: the sender (`message["from"]`) and
the payload. -/
structure MsgIn where
  sender : String
  payload : InboundMessage
deriving DecidableEq, Repr

/-- The `value` object of a change. -/
structure ChangeValue where
  messages : List MsgIn
deriving DecidableEq, Repr

/-- One element of the `changes` array. -/
structure Change where
  value : ChangeValue
deriving DecidableEq, Repr

/-- One element of the `entry` array. -/
structure Entry where
  changes : List Change
deriving DecidableEq, Repr

/-- The webhook POST envelope.  A missing `entry`/`changes`/`messages` key
defaults to the empty list (`data.get(..., [])`). -/
structure Envelope where
  entry : List Entry
deriving DecidableEq, Repr

/-- The full webhook POST handler: unwraps the envelope and dispatches the
first message.  Indexing `[0]` into an empty `entry` or `changes` list
raises `IndexError`, which the enclosing `except` converts into an HTTP 500
response with status `"error"`; an empty `messages` list is answered
early with status `"no_message"` and HTTP 200.  The result is
(actions, status string, HTTP code). -/
def webhook_post (sheetOk appendOk : Bool) (env : Envelope) :
    List Action × String × Nat :=
  match env.entry with
  | [] => ([], "error", 500)
  | e :: _ =>
    match e.changes with
    | [] => ([], "error", 500)
    | c :: _ =>
      match c.value.messages with
      | [] => ([], "no_message", 200)
      | m :: _ =>
        let r := handleMessage sheetOk appendOk m.sender m.payload
        (r.1, r.2, 200)

/-! ## Broadcast helpers (`extract_whatsapp_id`, `clean_whatsapp_number`,
`should_include_lead`, target selection and the send tally) -/

/-- A spreadsheet row as returned by `get_all_records`: field name to cell
value (cells modelled as strings; `str(row[field])` is then the identity,
and Python truthiness of a cell is non-emptiness). -/
abbrev SheetRow : Type := List (String × String)

/-- Model of `row[field]` guarded by `field in row`. -/
def rowGet (row : SheetRow) (field : String) : Option String :=
  (row.find? (fun kv => kv.1 = field)).map (fun kv => kv.2)

/-- The recipient-field spellings `extract_whatsapp_id` recognizes, in
order. -/
def idFieldNames : List String :=
  ["WhatsApp ID", "WhatsAppID", "whatsapp_id", "WhatsApp", "Phone", "Contact", "Mobile"]

/-- The placeholder values `extract_whatsapp_id` skips. -/
def sentinels : List String :=
  ["pending", "none", "null", ""]

/-- The loop body of `extract_whatsapp_id`: try each field name in order;
a truthy cell whose stripped value is non-empty and not a sentinel is
returned, otherwise the next field is tried. -/
def extractIdFrom (row : SheetRow) : List String → Option String
  | [] => none
  | f :: rest =>
    match rowGet row f with
    | some v =>
        if v ≠ "" then
          let value := pyStrip v
          if value ≠ "" ∧ ¬ sentinels.contains (lowerStr value) then
            some value
          else
            extractIdFrom row rest
        else
          extractIdFrom row rest
    | none => extractIdFrom row rest

/-- Model of `extract_whatsapp_id(row)`. -/
def extract_whatsapp_id (row : SheetRow) : Option String :=
  extractIdFrom row idFieldNames

/-- The intent-field spellings `extract_intent` recognizes, in order. -/
def intentFieldNames : List String :=
  ["Intent", "intent", "Status", "status"]

/-- The loop body of `extract_intent`: the first truthy cell is returned
stripped (no sentinel filtering); default `""`. -/
def extractIntentFrom (row : SheetRow) : List String → String
  | [] => ""
  | f :: rest =>
    match rowGet row f with
    | some v => if v ≠ "" then pyStrip v else extractIntentFrom row rest
    | none => extractIntentFrom row rest

/-- Model of `extract_intent(row)`. -/
def extract_intent (row : SheetRow) : String :=
  extractIntentFrom row intentFieldNames

/-- The name-field spellings `extract_name` recognizes, in order. -/
def nameFieldNames : List String :=
  ["Name", "name", "Full Name", "full_name"]

/-- The placeholder values `extract_name` skips. -/
def nameSentinels : List String :=
  ["pending", "unknown", "none"]

/-- The loop body of `extract_name`; default `""`. -/
def extractNameFrom (row : SheetRow) : List String → String
  | [] => ""
  | f :: rest =>
    match rowGet row f with
    | some v =>
        if v ≠ "" then
          let name := pyStrip v
          if name ≠ "" ∧ ¬ nameSentinels.contains (lowerStr name) then
            name
          else
            extractNameFrom row rest
        else
          extractNameFrom row rest
    | none => extractNameFrom row rest

/-- Model of `extract_name(row)`. -/
def extract_name (row : SheetRow) : String :=
  extractNameFrom row nameFieldNames

/-- Model of `is_valid_whatsapp_number(number)`: falsy input is invalid,
otherwise at least 8 digit characters are required. -/
def is_valid_whatsapp_number (number : String) : Bool :=
  if number = "" then false
  else 8 ≤ (digitsOf number).length

/-- Model of `clean_whatsapp_number(number)`: keep the digits; numbers not
starting with `968` get the prefix prepended (local numbers `9…` of length 8
directly, others after stripping leading zeros); the result must start with
`968` and have length at least 11, else `None`. -/
def clean_whatsapp_number (number : String) : Option String :=
  if number = "" then none
  else
    let clean0 := digitsOf number
    if clean0 = "" then none
    else
      let clean1 :=
        if ¬ strStarts clean0 "968" then
          if strStarts clean0 "9" ∧ clean0.length = 8 then
            "968" ++ clean0
          else
            "968" ++ lstripZeros clean0
        else clean0
      if 11 ≤ clean1.length ∧ strStarts clean1 "968" then some clean1
      else none

/-- Model of `should_include_lead(segment, intent, name)`. -/
def should_include_lead (segment intent _name : String) : Bool :=
  let intent_lower := lowerStr intent
  if segment = "all" then true
  else if segment = "register_now" then containsSub intent_lower "register now"
  else if segment = "register_later" then containsSub intent_lower "register later"
  else false

/-- A selected broadcast target as assembled by the broadcast loop. -/
structure TargetLead where
  whatsapp_id : String
  name : String
  intent : String
deriving DecidableEq, Repr

/-- The per-row body of the target-selection loop of `broadcast`: skip the
row when no recipient can be extracted, when the recipient is not valid,
when cleaning fails, or when the segment does not match. -/
def targetOfRow (segment : String) (row : SheetRow) : Option TargetLead :=
  match extract_whatsapp_id row with
  | none => none
  | some wid =>
    if ¬ is_valid_whatsapp_number wid then none
    else
      match clean_whatsapp_number wid with
      | none => none
      | some cleanId =>
          if should_include_lead segment (extract_intent row) (extract_name row) then
            some ⟨cleanId, extract_name row, extract_intent row⟩
          else none

/-- The target list the broadcast endpoint assembles from all records. -/
def selectTargets (segment : String) (records : List SheetRow) : List TargetLead :=
  records.filterMap (targetOfRow segment)

/-! ## Broadcast sending tally (lines 754-801 of `app.py`) -/

/-- The outcome of one `send_whatsapp_message` call in the broadcast loop:
success, an API rejection (`False` return), or an exception caught by the
`except` branch of the loop. -/
inductive SendOutcome where
  | success
  | apiRejected
  | exn (reason : String)
deriving DecidableEq, Repr

/-- Whether an outcome counts as a failure. -/
def SendOutcome.isFailure : SendOutcome → Bool
  | .success => false
  | .apiRejected => true
  | .exn _ => true

/-- One record of the `failed_details` list. -/
structure FailDetail where
  number : String
  name : String
  intent : String
  reason : String
deriving DecidableEq, Repr

/-- The fixed reason recorded when the WhatsApp API rejects a message. -/
def apiRejectedReason : String :=
  "WhatsApp API rejected message - may need to add number to allowed list"

/-- One iteration of the broadcast send loop, updating
(sent_count, failed_count, failed_details). -/
def broadcastStep (acc : Nat × Nat × List FailDetail) (x : TargetLead × SendOutcome) :
    Nat × Nat × List FailDetail :=
  match x.2 with
  | .success => (acc.1 + 1, acc.2.1, acc.2.2)
  | .apiRejected =>
      (acc.1, acc.2.1 + 1, acc.2.2 ++ [⟨x.1.whatsapp_id, x.1.name, x.1.intent, apiRejectedReason⟩])
  | .exn reason =>
      (acc.1, acc.2.1 + 1, acc.2.2 ++ [⟨x.1.whatsapp_id, x.1.name, x.1.intent, reason⟩])

/-- The totals of the broadcast loop over the target list paired with the
outcome of each send. -/
def broadcastTotals (xs : List (TargetLead × SendOutcome)) :
    Nat × Nat × List FailDetail :=
  xs.foldl broadcastStep (0, 0, [])

/-- The JSON body the broadcast endpoint returns. -/
structure BroadcastResponse where
  status : String
  sent : Nat
  failed : Nat
  total_recipients : Nat
  failed_details : List FailDetail
deriving DecidableEq, Repr

/-- The response assembly of `broadcast`: the empty target list is answered
early with `no_recipients`; otherwise the loop totals are reported with
`failed_details` truncated to the first 10 records. -/
def broadcastResponse (xs : List (TargetLead × SendOutcome)) : BroadcastResponse :=
  if xs.length = 0 then
    ⟨"no_recipients", 0, 0, 0, []⟩
  else
    let totals := broadcastTotals xs
    ⟨"broadcast_completed", totals.1, totals.2.1, xs.length, totals.2.2.take 10⟩

/-! ## Helper lemmas -/

/-- Lowercasing a decimal digit is the identity. -/
theorem toLower_of_isDigit (c : Char) (h : c.isDigit = true) : c.toLower = c := by
  simp only [Char.isDigit, Bool.and_eq_true, decide_eq_true_eq] at h
  unfold Char.toLower
  have h2 : c.toNat ≤ 57 := by
    have := h.2
    simp [UInt32.le_def, BitVec.le_def] at this
    exact this
  have hc : ¬ (65 ≤ c.toNat ∧ c.toNat ≤ 90) := by omega
  simp [hc]

/-- A digit cannot be a member of a digit-free character list. -/
theorem no_digit_mem (g : List Char) (c : Char) (hg : g.all (fun x => !x.isDigit) = true)
    (hm : c ∈ g) (hd : c.isDigit = true) : False := by
  have := List.all_eq_true.mp hg c hm
  simp [hd] at this

/-- A text containing a digit cannot lowercase to one of the digit-free
greeting tokens. -/
theorem greeting_no_digit (s : String) (h : s.data.any Char.isDigit = true) :
    greetings.contains (lowerStr s) = false := by
  by_contra hc
  rw [Bool.not_eq_false] at hc
  have hmem : lowerStr s ∈ greetings := List.elem_iff.mp hc
  obtain ⟨c, hcs, hcd⟩ := List.any_eq_true.mp h
  have hlow : c ∈ (lowerStr s).data := by
    have hmap : Char.toLower c ∈ s.data.map Char.toLower := List.mem_map_of_mem _ hcs
    rw [toLower_of_isDigit c hcd] at hmap
    exact hmap
  simp only [greetings, List.mem_cons, List.not_mem_nil, or_false] at hmem
  rcases hmem with he | he | he | he | he <;>
    exact no_digit_mem _ c (by decide) (he ▸ hlow) hcd

/-- Appending a lead produces no user-facing send. -/
theorem sendsOf_add_lead (ok : Bool) (n c i w : String) :
    sendsOf (add_lead_to_sheet ok n c i w).2 = [] := by
  cases ok <;> rfl

/-- `sendsOf` distributes over list append. -/
theorem sendsOf_append (a b : List Action) :
    sendsOf (a ++ b) = sendsOf a ++ sendsOf b :=
  List.filter_append a b

/-! ## Claim C1 -/

/-- Claim C1: the claim quantifies over ButtonReply as well, but a ButtonReply
with id `register_later` reaches `handle_interaction`, which sends the
canned Register Later text and appends no Lead: the claim is false for
ButtonReply events. -/
theorem C1_counterexample :
    handleMessage true true "96891234567" (.buttonReply "register_later" "Register Later") =
      ([Action.send (OutMsg.text "96891234567" registerLaterCannedText)], "button_handled") ∧
    appendsOf (handleMessage true true "96891234567"
        (.buttonReply "register_later" "Register Later")).1 = [] :=
  ⟨rfl, rfl⟩

/-- Claim C1 (amended): a ListReply with id `register_later` (sheet available,
append succeeding) appends exactly one Lead whose contact field is the
sender identifier and sends the acknowledgement text; a ButtonReply with
the same id only sends the canned Register Later text, with no append. -/
theorem C1_register_later (phone title : String) :
    handleMessage true true phone (.listReply "register_later" title) =
      ([Action.appendLead "Pending" phone phone "Register Later",
        Action.send (OutMsg.text phone registerLaterAckText)], "register_later_saved") ∧
    appendsOf [Action.appendLead "Pending" phone phone "Register Later",
        Action.send (OutMsg.text phone registerLaterAckText)] =
      [Action.appendLead "Pending" phone phone "Register Later"] ∧
    handleMessage true true phone (.buttonReply "register_later" title) =
      ([Action.send (OutMsg.text phone registerLaterCannedText)], "button_handled") :=
  ⟨rfl, rfl, rfl⟩

/-! ## Claim C2 -/

/-- Claim C2: the claim requires only that the body contain a greeting token, but
the code matches the whole lowered body against the greeting set; the body
`"hi 123"` contains the greeting `"hi"` yet is handled as a registration
submission: a Lead is appended and no Menu is emitted. -/
theorem C2_counterexample :
    ("hi" ∈ greetings ∧ "hi 123" = "hi" ++ " 123" ∧ lowerStr "hi 123" = "hi 123") ∧
    handleMessage true true "96891234567" (.text "hi 123") =
      ([Action.appendLead "hi" "123" "96891234567" "Register Now",
        Action.send (OutMsg.text "96891234567" (confirmationText "hi" "123"))], "registered") ∧
    appendsOf (handleMessage true true "96891234567" (.text "hi 123")).1 ≠ [] := by
  refine ⟨by decide, by decide, by decide⟩

/-- Claim C2 (amended): when the stripped, lowercased body is exactly equal to a
greeting token, the handler emits exactly one outbound message, which is a
menu (the welcome button menu), and performs no Lead Store append. -/
theorem C2_greeting_exact (sheetOk appendOk : Bool) (phone body : String)
    (h : greetings.contains (lowerStr (pyStrip body)) = true) :
    handleMessage sheetOk appendOk phone (.text body) =
      ([Action.send (OutMsg.interactive phone welcomeInteractive)], "welcome_sent") ∧
    sendsOf [Action.send (OutMsg.interactive phone welcomeInteractive)] =
      [Action.send (OutMsg.interactive phone welcomeInteractive)] ∧
    OutMsg.isMenu (OutMsg.interactive phone welcomeInteractive) = true ∧
    appendsOf [Action.send (OutMsg.interactive phone welcomeInteractive)] = [] := by
  refine ⟨?_, rfl, rfl, rfl⟩
  have hm : lowerStr (pyStrip body) ∈ greetings := List.elem_iff.mp h
  simp [handleMessage, handleText, hm]

/-- Claim C2 witness: the greeting `"Hi"`. -/
theorem C2_witness :
    handleMessage true true "96891234567" (.text "Hi") =
      ([Action.send (OutMsg.interactive "96891234567" welcomeInteractive)], "welcome_sent") :=
  (C2_greeting_exact true true "96891234567" "Hi" (by decide)).1

/-! ## Claim C3 -/

/-- Claim C3: on at least two tokens (after pipe replacement, whitespace split
and empty-token dropping) the parser returns the last token as contact and
the space-join of the rest as name; on fewer it fails. -/
theorem C3_registration_parsing (text : String) :
    (∀ c : String, (parseParts text).getLast? = some c → 2 ≤ (parseParts text).length →
        parseRegistration text =
          some (String.intercalate " " (parseParts text).dropLast, c)) ∧
    ((parseParts text).length < 2 → parseRegistration text = none) := by
  constructor
  · intro c hc hlen
    simp [parseRegistration, hlen, hc]
  · intro hlt
    simp [parseRegistration, Nat.not_le.mpr hlt]

/-- Claim C3 witness: a pipe-separated registration and the single token
`"Ahmed"`. -/
theorem C3_witness :
    parseRegistration "Ahmed Al Harthy | 91234567" = some ("Ahmed Al Harthy", "91234567") ∧
    parseRegistration "Ahmed" = none := by
  constructor
  · have h := (C3_registration_parsing "Ahmed Al Harthy | 91234567").1 "91234567"
      (by decide) (by decide)
    rw [h]
    decide
  · exact (C3_registration_parsing "Ahmed").2 (by decide)

/-! ## Claim C4 -/

/-- Claim C4: the gate of the claim counts pipe-delimited tokens, but the
code gates on `text.split()` alone: `"Ahmed|91234567"` has two
pipe-delimited tokens and a digit, yet is answered with the fallback
welcome menu instead of being parsed; and `"1| |"` passes the gate of the
code but fails the parse, after which the welcome menu — not the
format-hint text — is sent. -/
theorem C4_counterexample :
    parseParts "Ahmed|91234567" = ["Ahmed", "91234567"] ∧
    "Ahmed|91234567".data.any Char.isDigit = true ∧
    handleMessage true true "96891234567" (.text "Ahmed|91234567") =
      ([Action.send (OutMsg.interactive "96891234567" welcomeInteractive)],
       "fallback_welcome_sent") ∧
    handleMessage true true "96891234567" (.text "1| |") =
      ([Action.send (OutMsg.interactive "96891234567" welcomeInteractive)],
       "fallback_welcome_sent") := by
  refine ⟨by decide, by decide, by decide, by decide⟩

/-- Claim C4 (amended): a TextMessage is treated as a registration submission
exactly when its stripped body contains a digit and splits into at least 2
whitespace-delimited tokens (pipes do not count as delimiters for this
gate); then, on parser success a Lead with intent Register Now is appended
(when the sheet is available) and the confirmation text is sent, while on
parser failure the fallback welcome menu is sent; otherwise no Lead is
appended and a welcome menu is sent. -/
theorem C4_registration_gate (sheetOk appendOk : Bool) (phone body : String) :
    ((pyStrip body).data.any Char.isDigit = true →
     2 ≤ (wsTokens (pyStrip body)).length →
      handleMessage sheetOk appendOk phone (.text body) =
        (match parseRegistration (pyStrip body) with
         | some (name, contact) =>
             ((if sheetOk then (add_lead_to_sheet appendOk name contact "Register Now" phone).2
               else []) ++
               [Action.send (OutMsg.text phone (confirmationText name contact))], "registered")
         | none =>
             ([Action.send (OutMsg.interactive phone welcomeInteractive)],
              "fallback_welcome_sent"))) ∧
    (¬ ((pyStrip body).data.any Char.isDigit = true ∧ 2 ≤ (wsTokens (pyStrip body)).length) →
      handleMessage sheetOk appendOk phone (.text body) =
        ([Action.send (OutMsg.interactive phone welcomeInteractive)],
         if greetings.contains (lowerStr (pyStrip body)) then "welcome_sent"
         else "fallback_welcome_sent") ∧
      appendsOf (handleMessage sheetOk appendOk phone (.text body)).1 = []) := by
  constructor
  · intro hd hw
    have hg : greetings.contains (lowerStr (pyStrip body)) = false :=
      greeting_no_digit _ hd
    have hgn : ¬ greetings.contains (lowerStr (pyStrip body)) = true := by
      simp only [hg]
      decide
    simp only [handleMessage, handleText]
    rw [if_neg hgn, if_pos ⟨hd, hw⟩]
  · intro hng
    by_cases hg : greetings.contains (lowerStr (pyStrip body)) = true
    · constructor
      · simp only [handleMessage, handleText]
        rw [if_pos hg, if_pos hg]
      · simp only [handleMessage, handleText]
        rw [if_pos hg]
        rfl
    · constructor
      · simp only [handleMessage, handleText]
        rw [if_neg hg, if_neg hng, if_neg hg]
      · simp only [handleMessage, handleText]
        rw [if_neg hg, if_neg hng]
        rfl

/-- Claim C4 witness: `"Ahmed | 91234567"` is registered; `"hello there"` (no
digit) falls back to the welcome menu. -/
theorem C4_witness :
    handleMessage true true "96891234567" (.text "Ahmed | 91234567") =
      ([Action.appendLead "Ahmed" "91234567" "96891234567" "Register Now",
        Action.send (OutMsg.text "96891234567" (confirmationText "Ahmed" "91234567"))],
       "registered") ∧
    handleMessage true true "96891234567" (.text "hello there") =
      ([Action.send (OutMsg.interactive "96891234567" welcomeInteractive)],
       "fallback_welcome_sent") := by
  constructor
  · have h := (C4_registration_gate true true "96891234567" "Ahmed | 91234567").1
      (by decide) (by decide)
    rw [h]
    decide
  · have h := ((C4_registration_gate true true "96891234567" "hello there").2
      (by decide)).1
    rw [h]
    decide

/-! ## Claim C5 -/

/-- Every character of the digit filtrate is a digit. -/
theorem allDigits_digitsOf (s : String) : ∀ c ∈ (digitsOf s).data, c.isDigit = true := by
  intro c hc
  simp only [digitsOf] at hc
  exact (List.mem_filter.mp hc).2

/-- The digit filtrate of an all-digit string is itself. -/
theorem digitsOf_self (s : String) (h : ∀ c ∈ s.data, c.isDigit = true) :
    digitsOf s = s := by
  unfold digitsOf
  rw [List.filter_eq_self.mpr h]

/-- Appending two all-digit strings yields an all-digit string. -/
theorem allDigits_append (s t : String) (hs : ∀ c ∈ s.data, c.isDigit = true)
    (ht : ∀ c ∈ t.data, c.isDigit = true) :
    ∀ c ∈ (s ++ t).data, c.isDigit = true := by
  intro c hc
  rw [String.data_append] at hc
  rcases List.mem_append.mp hc with h | h
  · exact hs c h
  · exact ht c h

/-- Stripping leading zeros of an all-digit string yields an all-digit
string. -/
theorem allDigits_lstripZeros (s : String) (h : ∀ c ∈ s.data, c.isDigit = true) :
    ∀ c ∈ (lstripZeros s).data, c.isDigit = true := by
  intro c hc
  simp only [lstripZeros] at hc
  exact h c ((List.dropWhile_sublist _).subset hc)

/-- Splitting `(if P then some x else none) = some r`. -/
theorem eq_some_of_ite {α : Type} {P : Prop} [Decidable P] {x r : α}
    (h : (if P then some x else none) = some r) : P ∧ r = x := by
  by_cases hp : P
  · rw [if_pos hp] at h
    exact ⟨hp, (Option.some.inj h).symm⟩
  · rw [if_neg hp] at h
    exact absurd h (by simp)

/-- A normalized number — all digits, length at least 11, starting with
`968` — is a fixed point of `clean_whatsapp_number`. -/
theorem clean_fixed (r : String) (hd : ∀ c ∈ r.data, c.isDigit = true)
    (hlen : 11 ≤ r.length) (hp : strStarts r "968" = true) :
    clean_whatsapp_number r = some r := by
  have hne : r ≠ "" := by
    intro h0
    rw [h0] at hlen
    exact absurd hlen (by decide)
  have hdr : digitsOf r = r := digitsOf_self r hd
  have hnot : ¬ (¬ strStarts r "968" = true) := by simp [hp]
  simp only [clean_whatsapp_number, hdr]
  rw [if_neg hne, if_neg hne, if_neg hnot, if_pos ⟨hlen, hp⟩]

/-- Claim C5: phone-number normalization is idempotent — any successful result of
`clean_whatsapp_number` is a fixed point of it. -/
theorem C5_clean_idempotent (number result : String)
    (h : clean_whatsapp_number number = some result) :
    clean_whatsapp_number result = some result := by
  by_cases h0 : number = ""
  · simp only [clean_whatsapp_number] at h
    rw [if_pos h0] at h
    exact absurd h (by simp)
  · by_cases h1 : digitsOf number = ""
    · simp only [clean_whatsapp_number] at h
      rw [if_neg h0, if_pos h1] at h
      exact absurd h (by simp)
    · have hd0 : ∀ c ∈ (digitsOf number).data, c.isDigit = true := allDigits_digitsOf number
      simp only [clean_whatsapp_number] at h
      rw [if_neg h0, if_neg h1] at h
      by_cases hA : strStarts (digitsOf number) "968" = true
      · have hnotA : ¬ (¬ strStarts (digitsOf number) "968" = true) := by simp [hA]
        rw [if_neg hnotA] at h
        obtain ⟨hC, rfl⟩ := eq_some_of_ite h
        exact clean_fixed _ hd0 hC.1 hC.2
      · rw [if_pos hA] at h
        by_cases hB : strStarts (digitsOf number) "9" = true ∧ (digitsOf number).length = 8
        · rw [if_pos hB] at h
          obtain ⟨hC, rfl⟩ := eq_some_of_ite h
          exact clean_fixed _ (allDigits_append _ _ (by decide) hd0) hC.1 hC.2
        · rw [if_neg hB] at h
          obtain ⟨hC, rfl⟩ := eq_some_of_ite h
          exact clean_fixed _
            (allDigits_append _ _ (by decide) (allDigits_lstripZeros _ hd0)) hC.1 hC.2

/-- Claim C5 witness: normalizing `"91234567"` gives `"96891234567"`, which
normalizes to itself. -/
theorem C5_witness : clean_whatsapp_number "96891234567" = some "96891234567" :=
  C5_clean_idempotent "91234567" "96891234567" (by decide)

/-! ## Claim C6 -/

/-- If every recipient-candidate field of a row is missing, empty-stripping
or a sentinel, the extraction loop finds nothing. -/
theorem extractIdFrom_none (row : SheetRow) (fs : List String)
    (h : ∀ f ∈ fs, ∀ v, rowGet row f = some v →
        pyStrip v = "" ∨ sentinels.contains (lowerStr (pyStrip v)) = true) :
    extractIdFrom row fs = none := by
  induction fs with
  | nil => rfl
  | cons f rest ih =>
      have hrest := ih (fun g hg v hv => h g (List.mem_cons_of_mem f hg) v hv)
      cases hg : rowGet row f with
      | none => simp [extractIdFrom, hg, hrest]
      | some v =>
          have hv := h f (List.mem_cons_self f rest) v hg
          have hcond : ¬ (pyStrip v ≠ "" ∧ ¬ sentinels.contains (lowerStr (pyStrip v)) = true) := by
            rcases hv with hv | hv
            · intro hc
              exact hc.1 hv
            · intro hc
              exact hc.2 hv
          by_cases hv0 : v = ""
          · simp [extractIdFrom, hg, hv0, hrest]
          · simp only [extractIdFrom, hg]
            rw [if_pos hv0, if_neg hcond]
            exact hrest

/-- Claim C6: the sentinel check is per-field with fallback to later recipient
fields: a row whose `WhatsApp ID` field is `"pending"` but whose `Contact`
field holds a number is not excluded — the number is extracted and the row
is targeted. -/
theorem C6_counterexample :
    extract_whatsapp_id [("WhatsApp ID", "pending"), ("Contact", "91234567")] =
      some "91234567" ∧
    sentinels.contains (lowerStr (pyStrip "pending")) = true ∧
    selectTargets "all" [[("WhatsApp ID", "pending"), ("Contact", "91234567")]] =
      [⟨"96891234567", "", ""⟩] := by
  refine ⟨by decide, by decide, by decide⟩

/-- Claim C6 (amended): a Lead row is excluded from broadcast targeting when every
recognized recipient field is missing, empty after stripping, or a
case-insensitive sentinel (`pending`, `none`, `null`, empty); a sentinel in
one recipient field alone does not exclude the row if another recognized
field holds a usable value. -/
theorem C6_sentinel_rows_excluded (row : SheetRow)
    (h : ∀ f ∈ idFieldNames, ∀ v, rowGet row f = some v →
        pyStrip v = "" ∨ sentinels.contains (lowerStr (pyStrip v)) = true) :
    extract_whatsapp_id row = none ∧
    ∀ segment rest, selectTargets segment (row :: rest) = selectTargets segment rest := by
  have hex : extract_whatsapp_id row = none := extractIdFrom_none row idFieldNames h
  refine ⟨hex, ?_⟩
  intro segment rest
  simp [selectTargets, List.filterMap_cons, targetOfRow, hex]

/-- Claim C6 witness: a row whose only recipient field is `"Pending"` is
excluded. -/
theorem C6_witness :
    extract_whatsapp_id [("WhatsApp ID", "Pending")] = none ∧
    selectTargets "all" [[("WhatsApp ID", "Pending")]] = [] := by
  have hh : ∀ f ∈ idFieldNames, ∀ v,
      rowGet [("WhatsApp ID", "Pending")] f = some v →
      pyStrip v = "" ∨ sentinels.contains (lowerStr (pyStrip v)) = true := by
    intro f hf v hv
    simp only [idFieldNames, List.mem_cons, List.not_mem_nil, or_false] at hf
    rcases hf with rfl | rfl | rfl | rfl | rfl | rfl | rfl
    · have h2 : some "Pending" = some v := hv
      injection h2 with h3
      rw [← h3]
      right
      decide
    all_goals exact Option.noConfusion hv
  have h := C6_sentinel_rows_excluded [("WhatsApp ID", "Pending")] hh
  exact ⟨h.1, by simpa using h.2 "all" []⟩

/-! ## Claim C7 -/

/-- Claim C7: the claim requires a non-fault acknowledgement for every malformed
envelope, but an envelope with no entries — or an entry with no changes —
raises `IndexError` inside the handler and is answered with status `error`
and HTTP 500, which does signal a fault to the platform. -/
theorem C7_counterexample :
    webhook_post true true ⟨[]⟩ = ([], "error", 500) ∧
    webhook_post true true ⟨[⟨[]⟩]⟩ = ([], "error", 500) :=
  ⟨rfl, rfl⟩

/-- Claim C7 (amended): an envelope with entries and changes but no messages is
ignored with the non-fault `no_message` acknowledgement (HTTP 200), while an
envelope missing entries or changes is answered with `error` and HTTP
500. -/
theorem C7_envelope_handling (sheetOk appendOk : Bool) (v : ChangeValue)
    (cs : List Change) (es es2 : List Entry) (h : v.messages = []) :
    webhook_post sheetOk appendOk ⟨⟨⟨v⟩ :: cs⟩ :: es⟩ = ([], "no_message", 200) ∧
    webhook_post sheetOk appendOk ⟨[]⟩ = ([], "error", 500) ∧
    webhook_post sheetOk appendOk ⟨⟨[]⟩ :: es2⟩ = ([], "error", 500) := by
  refine ⟨?_, rfl, rfl⟩
  simp [webhook_post, h]

/-- Claim C7 witness: the empty messages list. -/
theorem C7_witness :
    webhook_post true true ⟨[⟨[⟨⟨[]⟩⟩]⟩]⟩ = ([], "no_message", 200) :=
  (C7_envelope_handling true true ⟨[]⟩ [] [] [] rfl).1

/-! ## Claim C8 -/

/-- Membership transfer for the lead-append block: any action of a failed
append run is an action of the successful run or an operator-log line. -/
theorem add_lead_mem (ok : Bool) (n c i w : String) (a : Action)
    (h : a ∈ (add_lead_to_sheet ok n c i w).2) :
    a ∈ (add_lead_to_sheet true n c i w).2 ∨ ∃ m, a = Action.operatorLog m := by
  cases ok
  · simp [add_lead_to_sheet] at h
    exact Or.inr ⟨_, h⟩
  · exact Or.inl h

/-- The sends of a store block followed by a tail are the sends of the
tail, whatever the append result. -/
theorem storeBlock_sends (sOk b : Bool) (n c i w : String) (tail : List Action) :
    sendsOf ((if sOk then (add_lead_to_sheet b n c i w).2 else []) ++ tail) =
      sendsOf tail := by
  rw [sendsOf_append]
  cases sOk
  · simp [sendsOf]
  · simp [sendsOf_add_lead]

/-- Membership transfer for a store block followed by a tail. -/
theorem storeBlock_mem (sOk b : Bool) (n c i w : String) (tail : List Action) (a : Action)
    (h : a ∈ (if sOk then (add_lead_to_sheet b n c i w).2 else []) ++ tail) :
    a ∈ (if sOk then (add_lead_to_sheet true n c i w).2 else []) ++ tail ∨
      ∃ m, a = Action.operatorLog m := by
  rcases List.mem_append.mp h with h | h
  · cases sOk
    · simp at h
    · rcases add_lead_mem b n c i w a (by simpa using h) with h2 | h2
      · exact Or.inl (List.mem_append.mpr (Or.inl (by simpa using h2)))
      · exact Or.inr h2
  · exact Or.inl (List.mem_append.mpr (Or.inr h))

/-- Claim C8: whatever the result of the Lead Store append, the user-facing sends
and the HTTP status are the same as on a successful append, and any extra
action of the failing run is an operator-log line only — the storage
failure is never surfaced to the end user. -/
theorem C8_store_failure_best_effort (sheetOk appendOk : Bool) (phone : String)
    (msg : InboundMessage) :
    sendsOf (handleMessage sheetOk appendOk phone msg).1 =
      sendsOf (handleMessage sheetOk true phone msg).1 ∧
    (handleMessage sheetOk appendOk phone msg).2 =
      (handleMessage sheetOk true phone msg).2 ∧
    (∀ a ∈ (handleMessage sheetOk appendOk phone msg).1,
      a ∈ (handleMessage sheetOk true phone msg).1 ∨ ∃ m, a = Action.operatorLog m) := by
  cases msg with
  | unsupported => exact ⟨rfl, rfl, fun a ha => Or.inl ha⟩
  | buttonReply i t => exact ⟨rfl, rfl, fun a ha => Or.inl ha⟩
  | listReply i t =>
      by_cases h1 : i = "register_later"
      · subst h1
        have hL : handleMessage sheetOk appendOk phone (.listReply "register_later" t) =
            ((if sheetOk then (add_lead_to_sheet appendOk "Pending" phone "Register Later" phone).2
              else []) ++
              [Action.send (OutMsg.text phone registerLaterAckText)], "register_later_saved") := rfl
        have hR : handleMessage sheetOk true phone (.listReply "register_later" t) =
            ((if sheetOk then (add_lead_to_sheet true "Pending" phone "Register Later" phone).2
              else []) ++
              [Action.send (OutMsg.text phone registerLaterAckText)], "register_later_saved") := rfl
        refine ⟨?_, ?_, ?_⟩
        · rw [hL, hR]
          exact (storeBlock_sends _ _ _ _ _ _ _).trans (storeBlock_sends _ _ _ _ _ _ _).symm
        · rw [hL, hR]
        · intro a ha
          rw [hL] at ha
          rw [hR]
          exact storeBlock_mem _ _ _ _ _ _ _ a ha
      · have heq : handleMessage sheetOk appendOk phone (.listReply i t) =
            handleMessage sheetOk true phone (.listReply i t) := by
          simp only [handleMessage, if_neg h1]
        exact ⟨by rw [heq], by rw [heq], fun a ha => Or.inl (by rwa [heq] at ha)⟩
  | text body =>
      by_cases hg : greetings.contains (lowerStr (pyStrip body)) = true
      · have heq : handleMessage sheetOk appendOk phone (.text body) =
            handleMessage sheetOk true phone (.text body) := by
          simp only [handleMessage, handleText]
          rw [if_pos hg, if_pos hg]
        exact ⟨by rw [heq], by rw [heq], fun a ha => Or.inl (by rwa [heq] at ha)⟩
      · by_cases hd : (pyStrip body).data.any Char.isDigit = true ∧
            2 ≤ (wsTokens (pyStrip body)).length
        · cases hp : parseRegistration (pyStrip body) with
          | none =>
              have heq : handleMessage sheetOk appendOk phone (.text body) =
                  handleMessage sheetOk true phone (.text body) := by
                simp only [handleMessage, handleText]
                rw [if_neg hg, if_neg hg, if_pos hd, if_pos hd]
                simp only [hp]
              exact ⟨by rw [heq], by rw [heq], fun a ha => Or.inl (by rwa [heq] at ha)⟩
          | some p =>
              obtain ⟨name, contact⟩ := p
              have hL : handleMessage sheetOk appendOk phone (.text body) =
                  ((if sheetOk then
                      (add_lead_to_sheet appendOk name contact "Register Now" phone).2
                    else []) ++
                    [Action.send (OutMsg.text phone (confirmationText name contact))],
                   "registered") := by
                simp only [handleMessage, handleText]
                rw [if_neg hg, if_pos hd]
                simp only [hp]
              have hR : handleMessage sheetOk true phone (.text body) =
                  ((if sheetOk then
                      (add_lead_to_sheet true name contact "Register Now" phone).2
                    else []) ++
                    [Action.send (OutMsg.text phone (confirmationText name contact))],
                   "registered") := by
                simp only [handleMessage, handleText]
                rw [if_neg hg, if_pos hd]
                simp only [hp]
              refine ⟨?_, ?_, ?_⟩
              · rw [hL, hR]
                exact (storeBlock_sends _ _ _ _ _ _ _).trans
                  (storeBlock_sends _ _ _ _ _ _ _).symm
              · rw [hL, hR]
              · intro a ha
                rw [hL] at ha
                rw [hR]
                exact storeBlock_mem _ _ _ _ _ _ _ a ha
        · have heq : handleMessage sheetOk appendOk phone (.text body) =
              handleMessage sheetOk true phone (.text body) := by
            simp only [handleMessage, handleText]
            rw [if_neg hg, if_neg hg, if_neg hd, if_neg hd]
          exact ⟨by rw [heq], by rw [heq], fun a ha => Or.inl (by rwa [heq] at ha)⟩

/-- Claim C8 witness: a `register_later` ListReply with a failing append still
sends the acknowledgement and only adds an operator-log line. -/
theorem C8_witness :
    sendsOf (handleMessage true false "96891234567"
        (.listReply "register_later" "Register Later")).1 =
      sendsOf (handleMessage true true "96891234567"
        (.listReply "register_later" "Register Later")).1 :=
  (C8_store_failure_best_effort true false "96891234567"
    (.listReply "register_later" "Register Later")).1

/-! ## Claim C9 -/

/-- Claim C9: an interaction id outside the canned-content table gets the fixed
fallback reply and no Lead Store write, both for ButtonReply and ListReply
events. -/
theorem C9_unrecognized_id (sheetOk appendOk : Bool) (phone title optionId : String)
    (h : ∀ kv ∈ responses, kv.1 ≠ optionId) :
    handleMessage sheetOk appendOk phone (.buttonReply optionId title) =
      ([Action.send (OutMsg.text phone didNotUnderstandText)], "button_handled") ∧
    handleMessage sheetOk appendOk phone (.listReply optionId title) =
      ([Action.send (OutMsg.text phone didNotUnderstandText)], "list_handled") := by
  have hfind : responses.find? (fun kv => kv.1 = optionId) = none := by
    apply List.find?_eq_none.mpr
    intro kv hkv
    simpa using h kv hkv
  have h1 : ¬ (optionId = "view_options") := by
    intro he
    exact h ("view_options", RespEntry.sendMainOptions) (by simp [responses]) (by rw [he])
  have h2 : ¬ (optionId = "register_later") := by
    intro he
    exact h ("register_later", RespEntry.reply registerLaterCannedText)
      (by simp [responses]) (by rw [he])
  have h3 : ¬ (optionId = "register_now") := by
    intro he
    exact h ("register_now", RespEntry.reply registerNowPromptText)
      (by simp [responses]) (by rw [he])
  constructor
  · simp only [handleMessage, if_neg h1, handle_interaction, hfind, Option.map_none']
  · simp only [handleMessage, if_neg h2, if_neg h3, handle_interaction, hfind,
      Option.map_none']

/-- Claim C9 witness: the unrecognized id `"bogus_option"`. -/
theorem C9_witness :
    handleMessage true true "96891234567" (.buttonReply "bogus_option" "Bogus") =
      ([Action.send (OutMsg.text "96891234567" didNotUnderstandText)], "button_handled") :=
  (C9_unrecognized_id true true "96891234567" "Bogus" "bogus_option" (by decide)).1

/-! ## Claim C10 -/

/-- The failure predicate on a successful send. -/
theorem isFailure_success : SendOutcome.success.isFailure = false := rfl

/-- The failure predicate on an API rejection. -/
theorem isFailure_apiRejected : SendOutcome.apiRejected.isFailure = true := rfl

/-- The failure predicate on an exception. -/
theorem isFailure_exn (r : String) : (SendOutcome.exn r).isFailure = true := rfl

/-- Loop invariant of the broadcast tally: sent plus failed grows by one per
recipient, failed counts exactly the failures, and the failure-detail list
has one record per failure. -/
theorem broadcastTotals_inv (xs : List (TargetLead × SendOutcome)) :
    ∀ (s f : Nat) (d : List FailDetail),
      ((xs.foldl broadcastStep (s, f, d)).1 + (xs.foldl broadcastStep (s, f, d)).2.1 =
        s + f + xs.length) ∧
      ((xs.foldl broadcastStep (s, f, d)).2.1 =
        f + (xs.filter (fun x => x.2.isFailure)).length) ∧
      ((xs.foldl broadcastStep (s, f, d)).2.2.length =
        d.length + (xs.filter (fun x => x.2.isFailure)).length) := by
  induction xs with
  | nil =>
      intro s f d
      simp
  | cons x rest ih =>
      intro s f d
      obtain ⟨l, o⟩ := x
      cases o with
      | success =>
          obtain ⟨h1, h2, h3⟩ := ih (s + 1) f d
          have hfold : ((l, SendOutcome.success) :: rest).foldl broadcastStep (s, f, d) =
              rest.foldl broadcastStep (s + 1, f, d) := rfl
          have hfilt : ((l, SendOutcome.success) :: rest).filter (fun x => x.2.isFailure) =
              rest.filter (fun x => x.2.isFailure) := rfl
          refine ⟨?_, ?_, ?_⟩
          · rw [hfold, List.length_cons]
            omega
          · rw [hfold, hfilt]
            omega
          · rw [hfold, hfilt]
            omega
      | apiRejected =>
          obtain ⟨h1, h2, h3⟩ := ih s (f + 1)
            (d ++ [⟨l.whatsapp_id, l.name, l.intent, apiRejectedReason⟩])
          rw [List.length_append, List.length_singleton] at h3
          have hfold : ((l, SendOutcome.apiRejected) :: rest).foldl broadcastStep (s, f, d) =
              rest.foldl broadcastStep
                (s, f + 1, d ++ [⟨l.whatsapp_id, l.name, l.intent, apiRejectedReason⟩]) := rfl
          have hfilt : ((l, SendOutcome.apiRejected) :: rest).filter (fun x => x.2.isFailure) =
              (l, SendOutcome.apiRejected) :: rest.filter (fun x => x.2.isFailure) := rfl
          refine ⟨?_, ?_, ?_⟩
          · rw [hfold, List.length_cons]
            omega
          · rw [hfold, hfilt, List.length_cons]
            omega
          · rw [hfold, hfilt, List.length_cons]
            omega
      | exn reason =>
          obtain ⟨h1, h2, h3⟩ := ih s (f + 1)
            (d ++ [⟨l.whatsapp_id, l.name, l.intent, reason⟩])
          rw [List.length_append, List.length_singleton] at h3
          have hfold : ((l, SendOutcome.exn reason) :: rest).foldl broadcastStep (s, f, d) =
              rest.foldl broadcastStep
                (s, f + 1, d ++ [⟨l.whatsapp_id, l.name, l.intent, reason⟩]) := rfl
          have hfilt : ((l, SendOutcome.exn reason) :: rest).filter (fun x => x.2.isFailure) =
              (l, SendOutcome.exn reason) :: rest.filter (fun x => x.2.isFailure) := rfl
          refine ⟨?_, ?_, ?_⟩
          · rw [hfold, List.length_cons]
            omega
          · rw [hfold, hfilt, List.length_cons]
            omega
          · rw [hfold, hfilt, List.length_cons]
            omega

/-- Claim C10: the broadcast response counts every failure in `failed`, reports
`sent + failed = total_recipients`, and truncates `failed_details` to the
first 10 records of the full per-failure list. -/
theorem C10_broadcast_truncation (xs : List (TargetLead × SendOutcome)) :
    (broadcastResponse xs).failed = (xs.filter (fun x => x.2.isFailure)).length ∧
    (broadcastResponse xs).sent + (broadcastResponse xs).failed =
      (broadcastResponse xs).total_recipients ∧
    (broadcastResponse xs).failed_details = (broadcastTotals xs).2.2.take 10 ∧
    (broadcastTotals xs).2.2.length = (broadcastResponse xs).failed ∧
    (broadcastResponse xs).failed_details.length ≤ 10 := by
  obtain ⟨h1, h2, h3⟩ := broadcastTotals_inv xs 0 0 []
  by_cases h : xs.length = 0
  · have hx : xs = [] := List.length_eq_zero.mp h
    subst hx
    exact ⟨rfl, rfl, rfl, rfl, by decide⟩
  · have hresp : broadcastResponse xs =
        ⟨"broadcast_completed", (broadcastTotals xs).1, (broadcastTotals xs).2.1,
          xs.length, (broadcastTotals xs).2.2.take 10⟩ := by
      rw [broadcastResponse, if_neg h]
    have h1a : (broadcastTotals xs).1 + (broadcastTotals xs).2.1 = 0 + 0 + xs.length := h1
    have h2a : (broadcastTotals xs).2.1 =
        0 + (xs.filter (fun x => x.2.isFailure)).length := h2
    have h3a : (broadcastTotals xs).2.2.length =
        ([] : List FailDetail).length + (xs.filter (fun x => x.2.isFailure)).length := h3
    have hnil : ([] : List FailDetail).length = 0 := rfl
    rw [hresp]
    refine ⟨?_, ?_, rfl, ?_, ?_⟩
    · show (broadcastTotals xs).2.1 = (xs.filter (fun x => x.2.isFailure)).length
      omega
    · show (broadcastTotals xs).1 + (broadcastTotals xs).2.1 = xs.length
      omega
    · show (broadcastTotals xs).2.2.length = (broadcastTotals xs).2.1
      omega
    · show ((broadcastTotals xs).2.2.take 10).length ≤ 10
      rw [List.length_take]
      exact Nat.min_le_left _ _

end KarateBot
